import Mathlib

/-
Verification of the Apitor BLE peripheral drivers
(`src/extensions/scratch3_apitorq/index.js` and
`src/extensions/scratch3_apitorx/index.js`) against their
natural-language specification.

The two driver classes are embedded shallowly: pure command encoders
become Lean functions on `Int`, the stateful peripheral session becomes
explicit state passing over a `State` structure holding the connection
flag, the rate-limiter state, the current time, a log of transmitted
frames and the sensor snapshot.  JavaScript `undefined` for an omitted
numeric argument is modelled as `Option Int` with `none`.
-/

/-! ### Base64 decoding

Modelled from the spec: `Base64Util.base64ToUint8Array` lives in
`util/base64-util` which is not under `src/`; the spec's wire-protocol
table gives the password frame as raw bytes, so the utility is taken to
be standard RFC 4648 base64 decoding (the source's own hex comments on
the password constants confirm the decoded bytes, see
`ApitorQ.password_bytes_q` and `ApitorX.password_bytes_x` below). -/

/-- Modelled from the spec: value of a single base64 alphabet character,
`none` for characters outside the alphabet. -/
def b64val (c : Char) : Option Int :=
  if 'A' ≤ c ∧ c ≤ 'Z' then some ((c.toNat : Int) - 65)
  else if 'a' ≤ c ∧ c ≤ 'z' then some ((c.toNat : Int) - 71)
  else if '0' ≤ c ∧ c ≤ '9' then some ((c.toNat : Int) + 4)
  else if c = '+' then some 62
  else if c = '/' then some 63
  else none

/-- Modelled from the spec: turn a list of 6-bit base64 values into bytes,
four values giving three bytes, with a short trailing group giving the
leftover bytes. -/
def b64bytes : List Int → List Int
  | a :: b :: c :: d :: rest =>
      (a * 4 + b / 16) :: ((b % 16) * 16 + c / 4) :: ((c % 4) * 64 + d) :: b64bytes rest
  | [a, b] => [a * 4 + b / 16]
  | [a, b, c] => [a * 4 + b / 16, (b % 16) * 16 + c / 4]
  | _ => []

/-- Modelled from the spec: `Base64Util.base64ToUint8Array`, standard
base64 decoding of a string into a byte list. -/
def base64ToUint8Array (s : String) : List Int :=
  b64bytes ((s.toList.filter (fun c => c ≠ '=')).filterMap b64val)

/-! ### Rate limiter

Modelled from the spec: `util/rateLimiter.js` is not under `src/`.  The
spec describes the state as "a count of sends within the current window
plus the window's start time; mutated on every permitted send, reset
when the window elapses", and `okayToSend()` as "returns true and
increments the window counter if below the ceiling (20 sends per rolling
1-second window); otherwise returns false with no side effect".  Time is
an explicit `Int` of milliseconds. -/

/-- Maximum number of BLE message sends per second, enforced by the rate
limiter (`BLESendRateMax` in both source files). -/
def BLESendRateMax : Nat := 20

/-- Modelled from the spec: the rate limiter's state, a count of sends
within the current window plus the window's start time. -/
structure RateLimiter where
  count : Nat
  windowStart : Int
deriving DecidableEq

/-- Length of the rolling window, one second in milliseconds. -/
def RateLimiter.windowMs : Int := 1000

/-- Modelled from the spec: `okayToSend()`.  The window is first reset if
it has elapsed; then the call returns true and increments the counter if
the counter is below the ceiling, otherwise returns false leaving the
state unchanged. -/
def RateLimiter.okayToSend (rl : RateLimiter) (now : Int) : Bool × RateLimiter :=
  let rl1 := if RateLimiter.windowMs ≤ now - rl.windowStart then ⟨0, now⟩ else rl
  if rl1.count < BLESendRateMax then (true, ⟨rl1.count + 1, rl1.windowStart⟩)
  else (false, rl1)

/-- Run a sequence of `okayToSend` calls at the given times, collecting
the returned booleans and the final limiter state. -/
def runCalls (rl : RateLimiter) : List Int → List Bool × RateLimiter
  | [] => ([], rl)
  | t :: ts =>
      let r := rl.okayToSend t
      let rest := runCalls r.2 ts
      (r.1 :: rest.1, rest.2)

/-- Outcome of a `send` call: either the promise resolved trivially with
nothing transmitted (disconnected or rate-limited path), or the frame
was handed to the BLE transport. -/
inductive SendOutcome where
  | resolvedWithoutTransmit
  | transmitted
deriving DecidableEq

/-- Modelled from the spec: `MathUtil.wrapClamp` is not under `src/`; the
spec says the color id is "wrapped/clamped into the valid palette range
[0,7] by the caller", so wrapping into `[lo, hi]` is modelled as
`lo + (n - lo) mod (hi - lo + 1)` (Euclidean mod, matching a floor-based
JavaScript wrap). -/
def wrapClamp (n lo hi : Int) : Int := lo + (n - lo) % (hi - lo + 1)

/-! ### ApitorQ constants (`ApitorQ_LedID`, `ApitorQ_LedColorID`,
`ApitorQ_MotorID`, `ApitorQ_MotorDirectionID` in the source) -/

def ApitorQ_LedID_L1 : Int := 0x01
def ApitorQ_LedID_L2 : Int := 0x02
def ApitorQ_LedID_ALL : Int := 0x04
def ApitorQ_LedID_ALLSTOP : Int := 0x03
def ApitorQ_LedColorID_OFF : Int := 0x00
def ApitorQ_MotorID_M1 : Int := 0x06
def ApitorQ_MotorID_M2 : Int := 0x07
def ApitorQ_MotorID_ALL : Int := 0x09
def ApitorQ_MotorID_ALLSTOP : Int := 0x10
def ApitorQ_MotorDirectionID_D1 : Int := 0x01
def ApitorQ_MotorDirectionID_D2 : Int := 0x02
def ApitorQ_MotorDirectionID_STOP : Int := 0x00

/-- Frame built by `ApitorQ.setLED (id, color, offTime, onTime)` before
it is handed to `send`: the all/off target collapses to the all-stop id,
then the 7-byte frame `[0x55, 0xaa, 0x04, id, color, onTime, offTime]`
is built.  The two tick arguments are `Option Int` because JavaScript
callers may omit them (`undefined`). -/
def ApitorQ.setLEDcmd (id color : Int) (offTime onTime : Option Int) : List (Option Int) :=
  let id1 := if color = 0 ∧ id = ApitorQ_LedID_ALL then ApitorQ_LedID_ALLSTOP else id
  [some 0x55, some 0xaa, some 0x04, some id1, some color, onTime, offTime]

/-- Frame built by `ApitorQ.setMotor (id, speed)` before it is handed to
`send`: direction is D1 for positive speed, STOP for zero, D2 (negating
the speed) for negative; a STOP direction forces the speed to 0; a zero
speed with the "all" motor id collapses to the all-stop id; the frame is
`[0x55, 0xaa, 0x03, id, direction, speed]`. -/
def ApitorQ.setMotorCmd (id speed : Int) : List Int :=
  let dir_speed : Int × Int :=
    if 0 < speed then (ApitorQ_MotorDirectionID_D1, speed)
    else if speed = 0 then (ApitorQ_MotorDirectionID_STOP, speed)
    else (ApitorQ_MotorDirectionID_D2, -speed)
  let speed1 := if dir_speed.1 = ApitorQ_MotorDirectionID_STOP then 0 else dir_speed.2
  let id1 := if speed1 = 0 ∧ id = ApitorQ_MotorID_ALL then ApitorQ_MotorID_ALLSTOP else id
  [0x55, 0xaa, 0x03, id1, dir_speed.1, speed1]

/-- Base64 string constant from `ApitorQ._sendPassword`. -/
def ApitorQ.passwordBase64 : String := "VaoRIGR5b3pXT1BmMDUyZ1dWUDQ="

/-- The decoded ApitorQ password bytes. -/
def ApitorQ.password : List Int := base64ToUint8Array ApitorQ.passwordBase64

/-- The decoded password equals the hex bytes the source's own comment
documents (`55aa112064796f7a574f50663035326757565034`). -/
theorem ApitorQ.password_bytes_q :
    ApitorQ.password =
      [0x55, 0xaa, 0x11, 0x20, 0x64, 0x79, 0x6f, 0x7a, 0x57, 0x4f,
       0x50, 0x66, 0x30, 0x35, 0x32, 0x67, 0x57, 0x56, 0x50, 0x34] := by
  decide

/-- Peripheral session state for the `ApitorQ` class: the connection
flag (`_ble` present and connected), the rate limiter (`_rateLimiter`),
the ambient current time for the limiter, a log of frames actually
handed to `_ble.write`, and the sensor snapshot fields. -/
structure ApitorQ.State where
  connected : Bool
  rateLimiter : RateLimiter
  now : Int
  sentLog : List (List (Option Int))
  sensorColor : Int
  sensorInfrared1 : Int
  sensorPower : Int
deriving DecidableEq

/-- Embedding of `ApitorQ.send (uuid, message, useLimiter = true)`: a
no-op resolution when disconnected; when `useLimiter` is set the rate
limiter gates the write; otherwise the frame is written.  The
characteristic uuid argument is constant at every call site and is
dropped. -/
def ApitorQ.send (st : ApitorQ.State) (message : List (Option Int))
    (useLimiter : Bool := true) : ApitorQ.State × SendOutcome :=
  if !st.connected then (st, SendOutcome.resolvedWithoutTransmit)
  else
    let gate := if useLimiter then st.rateLimiter.okayToSend st.now else (true, st.rateLimiter)
    if gate.1 = false then
      ({ st with rateLimiter := gate.2 }, SendOutcome.resolvedWithoutTransmit)
    else
      ({ st with rateLimiter := gate.2, sentLog := st.sentLog ++ [message] },
       SendOutcome.transmitted)

/-- Embedding of `ApitorQ.setMotor`: build the motor frame and `send` it
(with `useLimiter` left at its default `true`). -/
def ApitorQ.setMotor (st : ApitorQ.State) (id speed : Int) : ApitorQ.State × SendOutcome :=
  ApitorQ.send st ((ApitorQ.setMotorCmd id speed).map some)

/-- Embedding of `ApitorQ.setLED`: build the LED frame and `send` it
(with `useLimiter` left at its default `true`). -/
def ApitorQ.setLED (st : ApitorQ.State) (id color : Int)
    (offTime onTime : Option Int) : ApitorQ.State × SendOutcome :=
  ApitorQ.send st (ApitorQ.setLEDcmd id color offTime onTime)

/-- Embedding of `ApitorQ.stopAll`: nothing when disconnected, otherwise
`setMotor(ALL, 0)` followed by `setLED(ALL, OFF)` with both tick
arguments omitted (`undefined` in the source, `none` here). -/
def ApitorQ.stopAll (st : ApitorQ.State) : ApitorQ.State :=
  if !st.connected then st
  else
    let st1 := (ApitorQ.setMotor st ApitorQ_MotorID_ALL 0).1
    (ApitorQ.setLED st1 ApitorQ_LedID_ALL ApitorQ_LedColorID_OFF none none).1

/-- Embedding of `ApitorQ._sendPassword`: the decoded password constant
is passed to `send` with no third argument, so `useLimiter` takes its
default value `true`. -/
def ApitorQ.sendPassword (st : ApitorQ.State) : ApitorQ.State :=
  (ApitorQ.send st (ApitorQ.password.map some)).1

/-- Embedding of `ApitorQ.reset`: zero every sensor field. -/
def ApitorQ.reset (st : ApitorQ.State) : ApitorQ.State :=
  { st with sensorColor := 0, sensorInfrared1 := 0, sensorPower := 0 }

/-- Embedding of `ApitorQ.disconnect`: close the BLE link if present,
then `reset`. -/
def ApitorQ.disconnect (st : ApitorQ.State) : ApitorQ.State :=
  ApitorQ.reset { st with connected := false }

/-- Embedding of `ApitorQ._onMessage`: decode the notification and
either reject it with a logged diagnostic (the returned `Bool` is true
when the diagnostic was logged) leaving the sensors untouched, or accept
it and overwrite the snapshot from the fixed offsets.  Out-of-range
indexing (JavaScript `undefined`) is modelled by `List.getD _ 0`, which
fails the magic-byte comparisons exactly as `undefined` does. -/
def ApitorQ.onMessage (st : ApitorQ.State) (data : List Int) : ApitorQ.State × Bool :=
  if data.getD 0 0 ≠ 0x55 ∨ data.getD 1 0 ≠ 0xaa ∨ data.getD 2 0 ≠ 0x05 ∨
      data.length ≠ 8 then
    (st, true)
  else
    ({ st with sensorColor := data.getD 4 0, sensorInfrared1 := data.getD 5 0,
               sensorPower := data.getD 7 0 }, false)

/-- Frame built by the `Scratch3ApitorQBlocks.commandSetLedBlink` block
handler: it wraps the color into the palette and calls
`setLED(id, color, ontime, offtime)` — so positionally the block's
ON_TIME value is received by `setLED`'s `offTime` parameter and the
block's OFF_TIME value by its `onTime` parameter. -/
def Scratch3ApitorQBlocks.commandSetLedBlinkCmd (id color ontime offtime : Int) :
    List (Option Int) :=
  ApitorQ.setLEDcmd id (wrapClamp color 0 7) (some ontime) (some offtime)

/-! ### ApitorX, the second variant (3 motors, 2 infrared sensors);
the source file duplicates the ApitorQ logic with its own constants. -/

def ApitorX_LedID_L1 : Int := 0x01
def ApitorX_LedID_L2 : Int := 0x02
def ApitorX_LedID_ALL : Int := 0x04
def ApitorX_LedID_ALLSTOP : Int := 0x03
def ApitorX_LedColorID_OFF : Int := 0x00
def ApitorX_MotorID_M1 : Int := 0x06
def ApitorX_MotorID_M2 : Int := 0x07
def ApitorX_MotorID_M3 : Int := 0x08
def ApitorX_MotorID_ALL : Int := 0x09
def ApitorX_MotorID_ALLSTOP : Int := 0x10
def ApitorX_MotorDirectionID_D1 : Int := 0x01
def ApitorX_MotorDirectionID_D2 : Int := 0x02
def ApitorX_MotorDirectionID_STOP : Int := 0x00

/-- Frame built by `ApitorX.setLED (id, color, offTime, onTime)`,
identical in form to the ApitorQ one. -/
def ApitorX.setLEDcmd (id color : Int) (offTime onTime : Option Int) : List (Option Int) :=
  let id1 := if color = 0 ∧ id = ApitorX_LedID_ALL then ApitorX_LedID_ALLSTOP else id
  [some 0x55, some 0xaa, some 0x04, some id1, some color, onTime, offTime]

/-- Frame built by `ApitorX.setMotor (id, speed)`, identical in form to
the ApitorQ one. -/
def ApitorX.setMotorCmd (id speed : Int) : List Int :=
  let dir_speed : Int × Int :=
    if 0 < speed then (ApitorX_MotorDirectionID_D1, speed)
    else if speed = 0 then (ApitorX_MotorDirectionID_STOP, speed)
    else (ApitorX_MotorDirectionID_D2, -speed)
  let speed1 := if dir_speed.1 = ApitorX_MotorDirectionID_STOP then 0 else dir_speed.2
  let id1 := if speed1 = 0 ∧ id = ApitorX_MotorID_ALL then ApitorX_MotorID_ALLSTOP else id
  [0x55, 0xaa, 0x03, id1, dir_speed.1, speed1]

/-- Base64 string constant from `ApitorX._sendPassword`. -/
def ApitorX.passwordBase64 : String := "VaoRIFVJTThMVnlSbnVwaXNlQnY="

/-- The decoded ApitorX password bytes. -/
def ApitorX.password : List Int := base64ToUint8Array ApitorX.passwordBase64

/-- The decoded password equals the hex bytes the source's own comment
documents (`55aa112055494d384c5679526e75706973654276`). -/
theorem ApitorX.password_bytes_x :
    ApitorX.password =
      [0x55, 0xaa, 0x11, 0x20, 0x55, 0x49, 0x4d, 0x38, 0x4c, 0x56,
       0x79, 0x52, 0x6e, 0x75, 0x70, 0x69, 0x73, 0x65, 0x42, 0x76] := by
  decide

/-- Peripheral session state for the `ApitorX` class; compared with
ApitorQ there is an additional `sensorInfrared2` field. -/
structure ApitorX.State where
  connected : Bool
  rateLimiter : RateLimiter
  now : Int
  sentLog : List (List (Option Int))
  sensorColor : Int
  sensorInfrared1 : Int
  sensorInfrared2 : Int
  sensorPower : Int
deriving DecidableEq

/-- Embedding of `ApitorX.send`, identical in form to `ApitorQ.send`. -/
def ApitorX.send (st : ApitorX.State) (message : List (Option Int))
    (useLimiter : Bool := true) : ApitorX.State × SendOutcome :=
  if !st.connected then (st, SendOutcome.resolvedWithoutTransmit)
  else
    let gate := if useLimiter then st.rateLimiter.okayToSend st.now else (true, st.rateLimiter)
    if gate.1 = false then
      ({ st with rateLimiter := gate.2 }, SendOutcome.resolvedWithoutTransmit)
    else
      ({ st with rateLimiter := gate.2, sentLog := st.sentLog ++ [message] },
       SendOutcome.transmitted)

/-- Embedding of `ApitorX.setMotor`. -/
def ApitorX.setMotor (st : ApitorX.State) (id speed : Int) : ApitorX.State × SendOutcome :=
  ApitorX.send st ((ApitorX.setMotorCmd id speed).map some)

/-- Embedding of `ApitorX.setLED`. -/
def ApitorX.setLED (st : ApitorX.State) (id color : Int)
    (offTime onTime : Option Int) : ApitorX.State × SendOutcome :=
  ApitorX.send st (ApitorX.setLEDcmd id color offTime onTime)

/-- Embedding of `ApitorX.stopAll`. -/
def ApitorX.stopAll (st : ApitorX.State) : ApitorX.State :=
  if !st.connected then st
  else
    let st1 := (ApitorX.setMotor st ApitorX_MotorID_ALL 0).1
    (ApitorX.setLED st1 ApitorX_LedID_ALL ApitorX_LedColorID_OFF none none).1

/-- Embedding of `ApitorX._sendPassword` (again with `useLimiter` left
at its default `true`). -/
def ApitorX.sendPassword (st : ApitorX.State) : ApitorX.State :=
  (ApitorX.send st (ApitorX.password.map some)).1

/-- Embedding of `ApitorX.reset`. -/
def ApitorX.reset (st : ApitorX.State) : ApitorX.State :=
  { st with sensorColor := 0, sensorInfrared1 := 0, sensorInfrared2 := 0, sensorPower := 0 }

/-- Embedding of `ApitorX.disconnect`. -/
def ApitorX.disconnect (st : ApitorX.State) : ApitorX.State :=
  ApitorX.reset { st with connected := false }

/-- Embedding of `ApitorX._onMessage`; the accepted frame additionally
fills `sensorInfrared2` from byte 6. -/
def ApitorX.onMessage (st : ApitorX.State) (data : List Int) : ApitorX.State × Bool :=
  if data.getD 0 0 ≠ 0x55 ∨ data.getD 1 0 ≠ 0xaa ∨ data.getD 2 0 ≠ 0x05 ∨
      data.length ≠ 8 then
    (st, true)
  else
    ({ st with sensorColor := data.getD 4 0, sensorInfrared1 := data.getD 5 0,
               sensorInfrared2 := data.getD 6 0, sensorPower := data.getD 7 0 }, false)

/-! ### Helper lemmas about the rate limiter -/

/-- Within a window that has not yet elapsed, `okayToSend` grants and
counts the send below the ceiling and denies it at the ceiling. -/
theorem RateLimiter.okayToSend_inWindow (rl : RateLimiter) (now : Int)
    (h : now < rl.windowStart + RateLimiter.windowMs) :
    rl.okayToSend now =
      if rl.count < BLESendRateMax then (true, ⟨rl.count + 1, rl.windowStart⟩)
      else (false, rl) := by
  have hin : ¬ (RateLimiter.windowMs ≤ now - rl.windowStart) := by omega
  unfold RateLimiter.okayToSend
  simp only [if_neg hin]

/-- Once the window has elapsed, `okayToSend` resets it and grants. -/
theorem RateLimiter.okayToSend_elapsed (rl : RateLimiter) (now : Int)
    (h : rl.windowStart + RateLimiter.windowMs ≤ now) :
    rl.okayToSend now = (true, ⟨1, now⟩) := by
  have hel : RateLimiter.windowMs ≤ now - rl.windowStart := by omega
  unfold RateLimiter.okayToSend
  simp only [if_pos hel]
  rw [if_pos (by simp [BLESendRateMax])]

/-- A denied `okayToSend` leaves the limiter state unchanged. -/
theorem RateLimiter.okayToSend_false_state (rl : RateLimiter) (now : Int)
    (h : (rl.okayToSend now).1 = false) : (rl.okayToSend now).2 = rl := by
  unfold RateLimiter.okayToSend at *
  by_cases he : RateLimiter.windowMs ≤ now - rl.windowStart
  · simp only [if_pos he] at h ⊢
    rw [if_pos (by simp [BLESendRateMax])] at h
    exact absurd h (by simp)
  · simp only [if_neg he] at h ⊢
    by_cases hc : rl.count < BLESendRateMax
    · rw [if_pos hc] at h
      exact absurd h (by simp)
    · rw [if_neg hc]

/-! ### Claim C1: notification decoder -/

/-- C1: a notification byte sequence delivered to `_onMessage` is
accepted if and only if its length is exactly 8 and byte 0 is 0x55,
byte 1 is 0xaa and byte 2 is 0x05; on acceptance the sensor snapshot
becomes color = byte 4, infrared1 = byte 5 (ApitorX also
infrared2 = byte 6) and power = byte 7; on any violation a diagnostic is
logged (the returned flag) and every sensor field is left unchanged, the
decoder being a total function (no exception propagated). -/
theorem c1_notification_decoder :
    ∀ (stq : ApitorQ.State) (stx : ApitorX.State) (data : List Int),
      (data.length = 8 ∧ data.getD 0 0 = 0x55 ∧ data.getD 1 0 = 0xaa ∧
          data.getD 2 0 = 0x05 →
        ApitorQ.onMessage stq data =
          ({ stq with sensorColor := data.getD 4 0, sensorInfrared1 := data.getD 5 0,
                      sensorPower := data.getD 7 0 }, false) ∧
        ApitorX.onMessage stx data =
          ({ stx with sensorColor := data.getD 4 0, sensorInfrared1 := data.getD 5 0,
                      sensorInfrared2 := data.getD 6 0, sensorPower := data.getD 7 0 },
           false)) ∧
      (¬ (data.length = 8 ∧ data.getD 0 0 = 0x55 ∧ data.getD 1 0 = 0xaa ∧
          data.getD 2 0 = 0x05) →
        ApitorQ.onMessage stq data = (stq, true) ∧
        ApitorX.onMessage stx data = (stx, true)) := by
  intro stq stx data
  constructor
  · rintro ⟨h8, h0, h1, h2⟩
    unfold ApitorQ.onMessage ApitorX.onMessage
    rw [if_neg (by push_neg; exact ⟨h0, h1, h2, h8⟩),
        if_neg (by push_neg; exact ⟨h0, h1, h2, h8⟩)]
    exact ⟨rfl, rfl⟩
  · intro h
    unfold ApitorQ.onMessage ApitorX.onMessage
    rw [if_pos (by tauto), if_pos (by tauto)]
    exact ⟨rfl, rfl⟩

/-- Witness for C1: the spec's scenario frame
`[0x55, 0xaa, 0x05, 0x00, 0x03, 0x07, 0x00, 0x09]` updates the snapshot
to color 3, infrared1 7 (infrared2 0 on ApitorX) and power 9, and the
malformed 4-byte frame `[0x55, 0xaa, 0x05, 0x00]` is rejected leaving
the snapshot untouched. -/
theorem c1_witness :
    ApitorQ.onMessage ⟨true, ⟨0, 0⟩, 0, [], 1, 2, 3⟩
        [0x55, 0xaa, 0x05, 0x00, 0x03, 0x07, 0x00, 0x09] =
      (⟨true, ⟨0, 0⟩, 0, [], 3, 7, 9⟩, false) ∧
    ApitorX.onMessage ⟨true, ⟨0, 0⟩, 0, [], 1, 2, 3, 4⟩
        [0x55, 0xaa, 0x05, 0x00, 0x03, 0x07, 0x00, 0x09] =
      (⟨true, ⟨0, 0⟩, 0, [], 3, 7, 0, 9⟩, false) ∧
    ApitorQ.onMessage ⟨true, ⟨0, 0⟩, 0, [], 1, 2, 3⟩ [0x55, 0xaa, 0x05, 0x00] =
      (⟨true, ⟨0, 0⟩, 0, [], 1, 2, 3⟩, true) := by
  have hok := (c1_notification_decoder ⟨true, ⟨0, 0⟩, 0, [], 1, 2, 3⟩
    ⟨true, ⟨0, 0⟩, 0, [], 1, 2, 3, 4⟩
    [0x55, 0xaa, 0x05, 0x00, 0x03, 0x07, 0x00, 0x09]).1 (by decide)
  have hbad := (c1_notification_decoder ⟨true, ⟨0, 0⟩, 0, [], 1, 2, 3⟩
    ⟨true, ⟨0, 0⟩, 0, [], 1, 2, 3, 4⟩ [0x55, 0xaa, 0x05, 0x00]).2 (by decide)
  exact ⟨hok.1, hok.2, hbad.1⟩

/-! ### Claim C4: LED blink tick argument order (code bug) -/

/-- C4 is refuted by the code: `setLED`'s parameter list is
`(id, color, offTime, onTime)` while its frame is
`[0x55, 0xaa, 0x04, id, color, onTime, offTime]`, and
`commandSetLedBlink` passes `(id, color, ontime, offtime)` positionally.
So calling the encoder with third argument 2 and fourth argument 5 puts
5 at frame index 5 and 2 at frame index 6 (the claim predicts 2 then 5),
and the blink block with ON_TIME = 2, OFF_TIME = 5 produces a frame with
byte 5 = 5 = OFF_TIME and byte 6 = 2 = ON_TIME (the claim predicts
byte 5 = ON_TIME, byte 6 = OFF_TIME).  This contradicts the source's own
parameter documentation for `setLED`, which `commandSetLedBlink`'s
doc comment defers to. -/
theorem c4_led_tick_swap :
    Scratch3ApitorQBlocks.commandSetLedBlinkCmd 1 1 2 5 =
      [some 0x55, some 0xaa, some 0x04, some 1, some 1, some 5, some 2] ∧
    ApitorQ.setLEDcmd 1 1 (some 2) (some 5) =
      [some 0x55, some 0xaa, some 0x04, some 1, some 1, some 5, some 2] := by
  decide

/-! ### Claim C8: disconnect zeroes the snapshot and is idempotent -/

/-- C8: after a single `disconnect` every sensor field is zero, a second
`disconnect` yields exactly the same state as the first, and the
operation is total, in particular safe on an already-disconnected
session. -/
theorem c8_disconnect_idempotent :
    ∀ (stq : ApitorQ.State) (stx : ApitorX.State),
      (ApitorQ.disconnect stq).sensorColor = 0 ∧
      (ApitorQ.disconnect stq).sensorInfrared1 = 0 ∧
      (ApitorQ.disconnect stq).sensorPower = 0 ∧
      ApitorQ.disconnect (ApitorQ.disconnect stq) = ApitorQ.disconnect stq ∧
      (ApitorX.disconnect stx).sensorColor = 0 ∧
      (ApitorX.disconnect stx).sensorInfrared1 = 0 ∧
      (ApitorX.disconnect stx).sensorInfrared2 = 0 ∧
      (ApitorX.disconnect stx).sensorPower = 0 ∧
      ApitorX.disconnect (ApitorX.disconnect stx) = ApitorX.disconnect stx := by
  intro stq stx
  simp [ApitorQ.disconnect, ApitorQ.reset, ApitorX.disconnect, ApitorX.reset]

/-! ### Claim C9: password frame shape (corrected: 20 bytes, not 18) -/

/-- C9 counterexample: the ApitorQ password constant decodes to 20
bytes, not the 18 the claim states. -/
theorem c9_counterexample :
    ApitorQ.password.length = 20 ∧ ¬ (ApitorQ.password.length = 18) := by
  decide

/-- C9 amended: the fixed per-variant password frame is 20 bytes long
and begins with 0x55, 0xaa, 0x11. -/
theorem c9_password_shape :
    ApitorQ.password.length = 20 ∧
    ApitorQ.password.take 3 = [0x55, 0xaa, 0x11] ∧
    ApitorX.password.length = 20 ∧
    ApitorX.password.take 3 = [0x55, 0xaa, 0x11] := by
  decide

/-! ### Closed forms of the motor encoders -/

/-- Closed form of the ApitorQ motor frame: target id after the all-stop
substitution, direction from the sign of the speed, magnitude the
absolute value. -/
theorem ApitorQ.setMotorCmd_eq_q (id s : Int) :
    ApitorQ.setMotorCmd id s =
      [0x55, 0xaa, 0x03,
       if s = 0 ∧ id = ApitorQ_MotorID_ALL then ApitorQ_MotorID_ALLSTOP else id,
       if s = 0 then 0 else if 0 < s then 1 else 2,
       |s|] := by
  unfold ApitorQ.setMotorCmd
  rcases lt_trichotomy s 0 with h | h | h
  · simp [ApitorQ_MotorDirectionID_D2, ApitorQ_MotorDirectionID_STOP,
      not_lt.mpr h.le, h.ne, abs_of_neg h, neg_eq_zero]
  · simp [h, ApitorQ_MotorDirectionID_STOP]
  · simp [ApitorQ_MotorDirectionID_D1, ApitorQ_MotorDirectionID_STOP, h,
      h.ne', abs_of_pos h]

/-- Closed form of the ApitorX motor frame, identical to the ApitorQ
one. -/
theorem ApitorX.setMotorCmd_eq_x (id s : Int) :
    ApitorX.setMotorCmd id s =
      [0x55, 0xaa, 0x03,
       if s = 0 ∧ id = ApitorX_MotorID_ALL then ApitorX_MotorID_ALLSTOP else id,
       if s = 0 then 0 else if 0 < s then 1 else 2,
       |s|] := by
  unfold ApitorX.setMotorCmd
  rcases lt_trichotomy s 0 with h | h | h
  · simp [ApitorX_MotorDirectionID_D2, ApitorX_MotorDirectionID_STOP,
      not_lt.mpr h.le, h.ne, abs_of_neg h, neg_eq_zero]
  · simp [h, ApitorX_MotorDirectionID_STOP]
  · simp [ApitorX_MotorDirectionID_D1, ApitorX_MotorDirectionID_STOP, h,
      h.ne', abs_of_pos h]

/-! ### Claim C2: motor command encoding -/

/-- C2: for every motor id and signed speed in [-16, 16] the motor frame
has 6 bytes `0x55, 0xaa, 0x03` then the target id (here stated for the
generic case, in which the id is placed unchanged at index 3; the
all-stop substitution case is spelled out as well), a direction byte
that is the stop code iff the speed is zero, D1 iff it is positive and
D2 iff it is negative, and a magnitude byte equal to the absolute value
of the speed; in particular `setMotor(M1, -5)` yields
`[0x55, 0xaa, 0x03, M1, D2, 5]`.  Stated for both variants. -/
theorem c2_setMotor_encoding :
    (∀ (id s : Int), -16 ≤ s ∧ s ≤ 16 →
      (ApitorQ.setMotorCmd id s).length = 6 ∧
      (ApitorQ.setMotorCmd id s).getD 0 0 = 0x55 ∧
      (ApitorQ.setMotorCmd id s).getD 1 0 = 0xaa ∧
      (ApitorQ.setMotorCmd id s).getD 2 0 = 0x03 ∧
      ((ApitorQ.setMotorCmd id s).getD 4 0 = ApitorQ_MotorDirectionID_STOP ↔ s = 0) ∧
      ((ApitorQ.setMotorCmd id s).getD 4 0 = ApitorQ_MotorDirectionID_D1 ↔ 0 < s) ∧
      ((ApitorQ.setMotorCmd id s).getD 4 0 = ApitorQ_MotorDirectionID_D2 ↔ s < 0) ∧
      (ApitorQ.setMotorCmd id s).getD 5 0 = |s| ∧
      (¬ (s = 0 ∧ id = ApitorQ_MotorID_ALL) → (ApitorQ.setMotorCmd id s).getD 3 0 = id) ∧
      (ApitorX.setMotorCmd id s).length = 6 ∧
      (ApitorX.setMotorCmd id s).getD 0 0 = 0x55 ∧
      (ApitorX.setMotorCmd id s).getD 1 0 = 0xaa ∧
      (ApitorX.setMotorCmd id s).getD 2 0 = 0x03 ∧
      ((ApitorX.setMotorCmd id s).getD 4 0 = ApitorX_MotorDirectionID_STOP ↔ s = 0) ∧
      ((ApitorX.setMotorCmd id s).getD 4 0 = ApitorX_MotorDirectionID_D1 ↔ 0 < s) ∧
      ((ApitorX.setMotorCmd id s).getD 4 0 = ApitorX_MotorDirectionID_D2 ↔ s < 0) ∧
      (ApitorX.setMotorCmd id s).getD 5 0 = |s| ∧
      (¬ (s = 0 ∧ id = ApitorX_MotorID_ALL) → (ApitorX.setMotorCmd id s).getD 3 0 = id)) ∧
    ApitorQ.setMotorCmd ApitorQ_MotorID_M1 (-5) =
      [0x55, 0xaa, 0x03, ApitorQ_MotorID_M1, ApitorQ_MotorDirectionID_D2, 5] ∧
    ApitorX.setMotorCmd ApitorX_MotorID_M1 (-5) =
      [0x55, 0xaa, 0x03, ApitorX_MotorID_M1, ApitorX_MotorDirectionID_D2, 5] := by
  refine ⟨?_, by decide, by decide⟩
  intro id s _
  rw [ApitorQ.setMotorCmd_eq_q, ApitorX.setMotorCmd_eq_x]
  rcases lt_trichotomy s 0 with h | h | h
  · simp [List.getD, h, h.ne, not_lt.mpr h.le, abs_of_neg h,
      ApitorQ_MotorDirectionID_STOP, ApitorQ_MotorDirectionID_D1, ApitorQ_MotorDirectionID_D2,
      ApitorX_MotorDirectionID_STOP, ApitorX_MotorDirectionID_D1, ApitorX_MotorDirectionID_D2]
  · simp [List.getD, h,
      ApitorQ_MotorDirectionID_STOP, ApitorQ_MotorDirectionID_D1, ApitorQ_MotorDirectionID_D2,
      ApitorX_MotorDirectionID_STOP, ApitorX_MotorDirectionID_D1, ApitorX_MotorDirectionID_D2]
    tauto
  · simp [List.getD, h, h.ne', not_lt.mpr h.le, abs_of_pos h,
      ApitorQ_MotorDirectionID_STOP, ApitorQ_MotorDirectionID_D1, ApitorQ_MotorDirectionID_D2,
      ApitorX_MotorDirectionID_STOP, ApitorX_MotorDirectionID_D1, ApitorX_MotorDirectionID_D2]

/-- Witness for C2 at motor M1 and speed -5. -/
theorem c2_witness :
    ((-16 : Int) ≤ -5 ∧ (-5 : Int) ≤ 16) ∧
    (ApitorQ.setMotorCmd ApitorQ_MotorID_M1 (-5)).getD 4 0 = ApitorQ_MotorDirectionID_D2 ∧
    (ApitorQ.setMotorCmd ApitorQ_MotorID_M1 (-5)).getD 5 0 = 5 := by
  refine ⟨by decide, ?_, ?_⟩
  · exact ((c2_setMotor_encoding.1 ApitorQ_MotorID_M1 (-5) (by decide)).2.2.2.2.2.2.1).mpr
      (by decide)
  · have h := (c2_setMotor_encoding.1 ApitorQ_MotorID_M1 (-5) (by decide)).2.2.2.2.2.2.2.1
    simpa using h

/-! ### Claim C5: all-stop substitution in both encoders -/

/-- C5: `setLED(ALL, 0, ...)` encodes the dedicated LED all-stop id 0x03
at frame index 3, never the all id 0x04; `setMotor(ALL, s)` with
`|s| = 0` encodes the dedicated motor all-stop id 0x10, never the all id
0x09; and for any other target, or nonzero color or magnitude, the
target id is placed at index 3 unchanged.  Stated for both variants. -/
theorem c5_allstop_substitution :
    (∀ (offT onT : Option Int),
      (ApitorQ.setLEDcmd ApitorQ_LedID_ALL 0 offT onT).getD 3 none =
        some ApitorQ_LedID_ALLSTOP ∧
      (ApitorQ.setLEDcmd ApitorQ_LedID_ALL 0 offT onT).getD 3 none ≠
        some ApitorQ_LedID_ALL ∧
      (ApitorX.setLEDcmd ApitorX_LedID_ALL 0 offT onT).getD 3 none =
        some ApitorX_LedID_ALLSTOP ∧
      (ApitorX.setLEDcmd ApitorX_LedID_ALL 0 offT onT).getD 3 none ≠
        some ApitorX_LedID_ALL) ∧
    (∀ (id color : Int) (offT onT : Option Int), id ≠ ApitorQ_LedID_ALL ∨ color ≠ 0 →
      (ApitorQ.setLEDcmd id color offT onT).getD 3 none = some id ∧
      (ApitorX.setLEDcmd id color offT onT).getD 3 none = some id) ∧
    (∀ (s : Int), |s| = 0 →
      (ApitorQ.setMotorCmd ApitorQ_MotorID_ALL s).getD 3 0 = ApitorQ_MotorID_ALLSTOP ∧
      (ApitorQ.setMotorCmd ApitorQ_MotorID_ALL s).getD 3 0 ≠ ApitorQ_MotorID_ALL ∧
      (ApitorX.setMotorCmd ApitorX_MotorID_ALL s).getD 3 0 = ApitorX_MotorID_ALLSTOP ∧
      (ApitorX.setMotorCmd ApitorX_MotorID_ALL s).getD 3 0 ≠ ApitorX_MotorID_ALL) ∧
    (∀ (id s : Int), id ≠ ApitorQ_MotorID_ALL ∨ s ≠ 0 →
      (ApitorQ.setMotorCmd id s).getD 3 0 = id ∧
      (ApitorX.setMotorCmd id s).getD 3 0 = id) := by
  refine ⟨?_, ?_, ?_, ?_⟩
  · intro offT onT
    simp [ApitorQ.setLEDcmd, ApitorX.setLEDcmd, List.getD,
      ApitorQ_LedID_ALL, ApitorQ_LedID_ALLSTOP, ApitorX_LedID_ALL, ApitorX_LedID_ALLSTOP]
  · intro id color offT onT h
    have hq : ¬ (color = 0 ∧ id = ApitorQ_LedID_ALL) := by tauto
    have hx : ¬ (color = 0 ∧ id = ApitorX_LedID_ALL) := by
      simpa [ApitorQ_LedID_ALL, ApitorX_LedID_ALL] using hq
    simp [ApitorQ.setLEDcmd, ApitorX.setLEDcmd, List.getD, hq, hx]
  · intro s hs
    have h0 : s = 0 := abs_eq_zero.mp hs
    rw [ApitorQ.setMotorCmd_eq_q, ApitorX.setMotorCmd_eq_x]
    simp [List.getD, h0, ApitorQ_MotorID_ALL, ApitorQ_MotorID_ALLSTOP,
      ApitorX_MotorID_ALL, ApitorX_MotorID_ALLSTOP]
  · intro id s h
    have hq : ¬ (s = 0 ∧ id = ApitorQ_MotorID_ALL) := by tauto
    have hx : ¬ (s = 0 ∧ id = ApitorX_MotorID_ALL) := by
      simpa [ApitorQ_MotorID_ALL, ApitorX_MotorID_ALL] using hq
    rw [ApitorQ.setMotorCmd_eq_q, ApitorX.setMotorCmd_eq_x]
    simp [List.getD, hq, hx]

/-- Witness for C5: the LED pass-through at L1 with red, and the motor
pass-through at M1 with speed 3. -/
theorem c5_witness :
    (ApitorQ.setLEDcmd ApitorQ_LedID_L1 1 (some 0) (some 0)).getD 3 none =
      some ApitorQ_LedID_L1 ∧
    (ApitorQ.setMotorCmd ApitorQ_MotorID_M1 3).getD 3 0 = ApitorQ_MotorID_M1 := by
  exact ⟨(c5_allstop_substitution.2.1 ApitorQ_LedID_L1 1 (some 0) (some 0)
      (Or.inl (by decide))).1,
    (c5_allstop_substitution.2.2.2 ApitorQ_MotorID_M1 3 (Or.inl (by decide))).1⟩

/-! ### Helper lemmas about `send` -/

/-- A send on a disconnected ApitorQ session is a no-op resolution. -/
theorem ApitorQ.send_not_connected_q (st : ApitorQ.State) (msg : List (Option Int)) (ul : Bool)
    (hc : st.connected = false) :
    ApitorQ.send st msg ul = (st, SendOutcome.resolvedWithoutTransmit) := by
  unfold ApitorQ.send
  rw [if_pos (by simp [hc])]

/-- A connected but rate-limited ApitorQ send is a no-op resolution. -/
theorem ApitorQ.send_denied_q (st : ApitorQ.State) (msg : List (Option Int))
    (hc : st.connected = true) (hr : (st.rateLimiter.okayToSend st.now).1 = false) :
    ApitorQ.send st msg = (st, SendOutcome.resolvedWithoutTransmit) := by
  have hst := RateLimiter.okayToSend_false_state st.rateLimiter st.now hr
  unfold ApitorQ.send
  rw [if_neg (by simp [hc])]
  simp [hr, hst]

/-- A connected ApitorQ send granted by the limiter logs the frame. -/
theorem ApitorQ.send_granted_q (st : ApitorQ.State) (msg : List (Option Int))
    (hc : st.connected = true) (hr : (st.rateLimiter.okayToSend st.now).1 = true) :
    ApitorQ.send st msg =
      ({ st with rateLimiter := (st.rateLimiter.okayToSend st.now).2,
                 sentLog := st.sentLog ++ [msg] }, SendOutcome.transmitted) := by
  unfold ApitorQ.send
  rw [if_neg (by simp [hc])]
  simp [hr]

/-- A send on a disconnected ApitorX session is a no-op resolution. -/
theorem ApitorX.send_not_connected_x (st : ApitorX.State) (msg : List (Option Int)) (ul : Bool)
    (hc : st.connected = false) :
    ApitorX.send st msg ul = (st, SendOutcome.resolvedWithoutTransmit) := by
  unfold ApitorX.send
  rw [if_pos (by simp [hc])]

/-- A connected but rate-limited ApitorX send is a no-op resolution. -/
theorem ApitorX.send_denied_x (st : ApitorX.State) (msg : List (Option Int))
    (hc : st.connected = true) (hr : (st.rateLimiter.okayToSend st.now).1 = false) :
    ApitorX.send st msg = (st, SendOutcome.resolvedWithoutTransmit) := by
  have hst := RateLimiter.okayToSend_false_state st.rateLimiter st.now hr
  unfold ApitorX.send
  rw [if_neg (by simp [hc])]
  simp [hr, hst]

/-- A connected ApitorX send granted by the limiter logs the frame. -/
theorem ApitorX.send_granted_x (st : ApitorX.State) (msg : List (Option Int))
    (hc : st.connected = true) (hr : (st.rateLimiter.okayToSend st.now).1 = true) :
    ApitorX.send st msg =
      ({ st with rateLimiter := (st.rateLimiter.okayToSend st.now).2,
                 sentLog := st.sentLog ++ [msg] }, SendOutcome.transmitted) := by
  unfold ApitorX.send
  rw [if_neg (by simp [hc])]
  simp [hr]

/-! ### Claim C7: send degrades to a silent no-op -/

/-- C7: a `send` on a disconnected session resolves without transmitting
and without error, leaving the whole state untouched; a rate-limited
`send` (with the limiter in use, as every actuator write leaves it)
likewise resolves without transmitting, with the frame neither queued
nor retried (the transmit log is unchanged); the embedding is a total
function, so no exception reaches the caller.  Stated for both
variants. -/
theorem c7_send_silent_noop :
    ∀ (stq : ApitorQ.State) (stx : ApitorX.State) (msg : List (Option Int)) (ul : Bool),
      (stq.connected = false →
        ApitorQ.send stq msg ul = (stq, SendOutcome.resolvedWithoutTransmit)) ∧
      (stq.connected = true → (stq.rateLimiter.okayToSend stq.now).1 = false →
        ApitorQ.send stq msg = (stq, SendOutcome.resolvedWithoutTransmit)) ∧
      (stx.connected = false →
        ApitorX.send stx msg ul = (stx, SendOutcome.resolvedWithoutTransmit)) ∧
      (stx.connected = true → (stx.rateLimiter.okayToSend stx.now).1 = false →
        ApitorX.send stx msg = (stx, SendOutcome.resolvedWithoutTransmit)) := by
  intro stq stx msg ul
  exact ⟨ApitorQ.send_not_connected_q stq msg ul, ApitorQ.send_denied_q stq msg,
    ApitorX.send_not_connected_x stx msg ul, ApitorX.send_denied_x stx msg⟩

/-- Witness for C7: a disconnected ApitorQ session and a connected one
whose window counter sits at the ceiling both absorb a send as a
resolved no-op. -/
theorem c7_witness :
    ApitorQ.send ⟨false, ⟨0, 0⟩, 0, [], 0, 0, 0⟩ [some 1] true =
      (⟨false, ⟨0, 0⟩, 0, [], 0, 0, 0⟩, SendOutcome.resolvedWithoutTransmit) ∧
    ApitorQ.send ⟨true, ⟨20, 0⟩, 500, [], 0, 0, 0⟩ [some 1] =
      (⟨true, ⟨20, 0⟩, 500, [], 0, 0, 0⟩, SendOutcome.resolvedWithoutTransmit) := by
  exact ⟨(c7_send_silent_noop ⟨false, ⟨0, 0⟩, 0, [], 0, 0, 0⟩ ⟨false, ⟨0, 0⟩, 0, [], 0, 0, 0, 0⟩
      [some 1] true).1 rfl,
    (c7_send_silent_noop ⟨true, ⟨20, 0⟩, 500, [], 0, 0, 0⟩ ⟨false, ⟨0, 0⟩, 0, [], 0, 0, 0, 0⟩
      [some 1] true).2.1 rfl (by decide)⟩

/-! ### Claim C3: the password handshake versus the rate limiter
(corrected: the handshake write does consult the limiter) -/

/-- C3 counterexample: on a connected session whose one-second window
counter already sits at the ceiling, `_sendPassword` transmits nothing
at all — the state is a fixed point and the transmit log stays empty —
so the password write is not sent "regardless of how many sends the
current window has already counted". -/
theorem c3_counterexample :
    ApitorQ.sendPassword ⟨true, ⟨BLESendRateMax, 0⟩, 500, [], 0, 0, 0⟩ =
      ⟨true, ⟨BLESendRateMax, 0⟩, 500, [], 0, 0, 0⟩ ∧
    (ApitorQ.sendPassword ⟨true, ⟨BLESendRateMax, 0⟩, 500, [], 0, 0, 0⟩).sentLog = [] := by
  decide

/-- C3 amended: `_sendPassword` calls `send` without the `useLimiter`
argument, whose default is `true`, so the handshake write is gated by
the rate limiter exactly like the actuator command writes: within a
window at the ceiling it is silently dropped, below the ceiling it is
transmitted and counted; `setMotor` and `setLED` writes are gated the
same way. -/
theorem c3_password_is_rate_limited :
    ∀ (st : ApitorQ.State), st.connected = true →
      st.now < st.rateLimiter.windowStart + RateLimiter.windowMs →
      (BLESendRateMax ≤ st.rateLimiter.count → ApitorQ.sendPassword st = st) ∧
      (st.rateLimiter.count < BLESendRateMax →
        ApitorQ.sendPassword st =
          { st with rateLimiter := ⟨st.rateLimiter.count + 1, st.rateLimiter.windowStart⟩,
                    sentLog := st.sentLog ++ [ApitorQ.password.map some] }) ∧
      (∀ (id s : Int), BLESendRateMax ≤ st.rateLimiter.count →
        ApitorQ.setMotor st id s = (st, SendOutcome.resolvedWithoutTransmit)) ∧
      (∀ (id color : Int) (offT onT : Option Int), BLESendRateMax ≤ st.rateLimiter.count →
        ApitorQ.setLED st id color offT onT = (st, SendOutcome.resolvedWithoutTransmit)) := by
  intro st hc hw
  have hok := RateLimiter.okayToSend_inWindow st.rateLimiter st.now hw
  refine ⟨fun hfull => ?_, fun hfree => ?_, fun id s hfull => ?_, fun id c offT onT hfull => ?_⟩
  · have hr : (st.rateLimiter.okayToSend st.now).1 = false := by
      rw [hok, if_neg (not_lt.mpr hfull)]
    unfold ApitorQ.sendPassword
    rw [ApitorQ.send_denied_q st _ hc hr]
  · have hr : st.rateLimiter.okayToSend st.now =
        (true, ⟨st.rateLimiter.count + 1, st.rateLimiter.windowStart⟩) := by
      rw [hok, if_pos hfree]
    unfold ApitorQ.sendPassword
    rw [ApitorQ.send_granted_q st _ hc (by rw [hr]), hr]
  · have hr : (st.rateLimiter.okayToSend st.now).1 = false := by
      rw [hok, if_neg (not_lt.mpr hfull)]
    unfold ApitorQ.setMotor
    rw [ApitorQ.send_denied_q st _ hc hr]
  · have hr : (st.rateLimiter.okayToSend st.now).1 = false := by
      rw [hok, if_neg (not_lt.mpr hfull)]
    unfold ApitorQ.setLED
    rw [ApitorQ.send_denied_q st _ hc hr]

/-- Witness for C3's amended statement: a connected session with a full
window drops the password write; a connected fresh session transmits
it. -/
theorem c3_witness :
    ApitorQ.sendPassword ⟨true, ⟨20, 0⟩, 500, [], 0, 0, 0⟩ =
      ⟨true, ⟨20, 0⟩, 500, [], 0, 0, 0⟩ ∧
    ApitorQ.sendPassword ⟨true, ⟨0, 0⟩, 0, [], 0, 0, 0⟩ =
      ⟨true, ⟨1, 0⟩, 0, [ApitorQ.password.map some], 0, 0, 0⟩ := by
  refine ⟨(c3_password_is_rate_limited ⟨true, ⟨20, 0⟩, 500, [], 0, 0, 0⟩ rfl
      (by decide)).1 (by decide), ?_⟩
  have h := ((c3_password_is_rate_limited ⟨true, ⟨0, 0⟩, 0, [], 0, 0, 0⟩ rfl
      (by decide)).2.1 (by decide))
  simpa using h

/-! ### Claim C6: 20 sends per window, then denial, then recovery -/

/-- Inside a window starting at `t0`, a run of calls that stays below
the ceiling is granted throughout, incrementing the counter each
time. -/
theorem runCalls_inWindow (t0 : Int) :
    ∀ (ts : List Int) (k : Nat), k + ts.length ≤ BLESendRateMax →
      (∀ t ∈ ts, t0 ≤ t ∧ t < t0 + RateLimiter.windowMs) →
      runCalls ⟨k, t0⟩ ts = (List.replicate ts.length true, ⟨k + ts.length, t0⟩) := by
  intro ts
  induction ts with
  | nil => intro k _ _; simp [runCalls]
  | cons t ts ih =>
      intro k hk hmem
      have ht := hmem t (List.mem_cons_self t ts)
      have hcall : (⟨k, t0⟩ : RateLimiter).okayToSend t = (true, ⟨k + 1, t0⟩) := by
        rw [RateLimiter.okayToSend_inWindow ⟨k, t0⟩ t ht.2]
        rw [if_pos (by simp at hk ⊢; omega)]
      have hrest := ih (k + 1) (by simp at hk ⊢; omega)
        (fun t' ht' => hmem t' (List.mem_cons_of_mem t ht'))
      have harith : k + (ts.length + 1) = k + 1 + ts.length := by omega
      simp only [runCalls, hcall, hrest, List.replicate_succ, List.length_cons, harith]

/-- C6: starting from a fresh limiter whose window opens at `t0`, any 20
calls to `okayToSend` at times within the window are all granted; a 21st
call within the same window is denied with no side effect on the limiter
state; and any call at or after the window's end is granted again. -/
theorem c6_rate_limiter_ceiling (t0 : Int) (ts : List Int)
    (hlen : ts.length = BLESendRateMax)
    (hin : ∀ t ∈ ts, t0 ≤ t ∧ t < t0 + RateLimiter.windowMs) :
    (runCalls ⟨0, t0⟩ ts).1 = List.replicate BLESendRateMax true ∧
    (∀ t, t0 ≤ t → t < t0 + RateLimiter.windowMs →
      (runCalls ⟨0, t0⟩ ts).2.okayToSend t = (false, (runCalls ⟨0, t0⟩ ts).2)) ∧
    (∀ t, t0 + RateLimiter.windowMs ≤ t →
      ((runCalls ⟨0, t0⟩ ts).2.okayToSend t).1 = true) := by
  have hrun := runCalls_inWindow t0 ts 0 (by omega) hin
  refine ⟨?_, fun t _ htw => ?_, fun t hte => ?_⟩
  · rw [hrun, hlen]
  · rw [hrun]
    show (⟨0 + ts.length, t0⟩ : RateLimiter).okayToSend t = (false, ⟨0 + ts.length, t0⟩)
    rw [RateLimiter.okayToSend_inWindow _ t (by simpa using htw)]
    rw [if_neg (by simp [hlen])]
  · rw [hrun]
    show ((⟨0 + ts.length, t0⟩ : RateLimiter).okayToSend t).1 = true
    rw [RateLimiter.okayToSend_elapsed _ t (by simpa using hte)]

/-- Witness for C6: 20 calls at time 0 within the window starting at 0
are all granted, a call at time 999 is then denied without changing the
limiter, and a call at time 1000 is granted again. -/
theorem c6_witness :
    (runCalls ⟨0, 0⟩ (List.replicate 20 0)).1 = List.replicate BLESendRateMax true ∧
    (runCalls ⟨0, 0⟩ (List.replicate 20 0)).2.okayToSend 999 =
      (false, (runCalls ⟨0, 0⟩ (List.replicate 20 0)).2) ∧
    ((runCalls ⟨0, 0⟩ (List.replicate 20 0)).2.okayToSend 1000).1 = true := by
  have h := c6_rate_limiter_ceiling 0 (List.replicate 20 0) (by decide) (by decide)
  exact ⟨h.1, h.2.1 999 (by decide) (by decide), h.2.2 1000 (by decide)⟩

/-! ### Claim C10: stopAll is a no-op when disconnected and both of its
commands are rate-limited -/

/-- C10: `stopAll` performs no sends at all when disconnected; when
connected it attempts exactly the two commands `setMotor(ALL, 0)` and
`setLED(ALL, OFF)` with the two tick arguments left undefined, each
gated by the rate limiter (`send`'s `useLimiter` defaulting to true), so
the transmit log grows by exactly the frames the limiter grants — and
when the window counter has already reached the 20-send ceiling inside
the current window, both stop commands are silently dropped and the
state is unchanged.  Stated for both variants. -/
theorem c10_stopAll_rate_limited :
    ∀ (stq : ApitorQ.State) (stx : ApitorX.State),
      (stq.connected = false → ApitorQ.stopAll stq = stq) ∧
      (stq.connected = true →
        (ApitorQ.stopAll stq).sentLog =
          stq.sentLog ++
            (if (stq.rateLimiter.okayToSend stq.now).1 then
              [(ApitorQ.setMotorCmd ApitorQ_MotorID_ALL 0).map some] else []) ++
            (if ((stq.rateLimiter.okayToSend stq.now).2.okayToSend stq.now).1 then
              [ApitorQ.setLEDcmd ApitorQ_LedID_ALL ApitorQ_LedColorID_OFF none none]
             else [])) ∧
      (stq.connected = true → BLESendRateMax ≤ stq.rateLimiter.count →
        stq.now < stq.rateLimiter.windowStart + RateLimiter.windowMs →
        ApitorQ.stopAll stq = stq) ∧
      (stx.connected = false → ApitorX.stopAll stx = stx) ∧
      (stx.connected = true →
        (ApitorX.stopAll stx).sentLog =
          stx.sentLog ++
            (if (stx.rateLimiter.okayToSend stx.now).1 then
              [(ApitorX.setMotorCmd ApitorX_MotorID_ALL 0).map some] else []) ++
            (if ((stx.rateLimiter.okayToSend stx.now).2.okayToSend stx.now).1 then
              [ApitorX.setLEDcmd ApitorX_LedID_ALL ApitorX_LedColorID_OFF none none]
             else [])) ∧
      (stx.connected = true → BLESendRateMax ≤ stx.rateLimiter.count →
        stx.now < stx.rateLimiter.windowStart + RateLimiter.windowMs →
        ApitorX.stopAll stx = stx) := by
  intro stq stx
  obtain ⟨qc, qrl, qnow, qlog, qsc, qsi, qsp⟩ := stq
  obtain ⟨xc, xrl, xnow, xlog, xsc, xsi1, xsi2, xsp⟩ := stx
  refine ⟨fun hc => ?_, fun hc => ?_, fun hc hfull hw => ?_,
    fun hc => ?_, fun hc => ?_, fun hc hfull hw => ?_⟩
  · replace hc : qc = false := hc
    subst hc
    unfold ApitorQ.stopAll
    rw [if_pos (by simp)]
  · replace hc : qc = true := hc
    subst hc
    unfold ApitorQ.stopAll
    rw [if_neg (by simp)]
    cases hb : (qrl.okayToSend qnow).1 with
    | true =>
        cases hb2 : ((qrl.okayToSend qnow).2.okayToSend qnow).1 with
        | true => simp [ApitorQ.setMotor, ApitorQ.setLED, ApitorQ.send, hb, hb2]
        | false => simp [ApitorQ.setMotor, ApitorQ.setLED, ApitorQ.send, hb, hb2]
    | false =>
        have hst := RateLimiter.okayToSend_false_state qrl qnow hb
        cases hb2 : ((qrl.okayToSend qnow).2.okayToSend qnow).1 with
        | true =>
            rw [hst] at hb2
            exact absurd hb2 (by simp [hb])
        | false => simp [ApitorQ.setMotor, ApitorQ.setLED, ApitorQ.send, hb, hb2, hst]
  · replace hc : qc = true := hc
    subst hc
    replace hfull : BLESendRateMax ≤ qrl.count := hfull
    replace hw : qnow < qrl.windowStart + RateLimiter.windowMs := hw
    have hr : (qrl.okayToSend qnow).1 = false := by
      rw [RateLimiter.okayToSend_inWindow qrl qnow hw, if_neg (not_lt.mpr hfull)]
    have hst := RateLimiter.okayToSend_false_state qrl qnow hr
    unfold ApitorQ.stopAll
    rw [if_neg (by simp)]
    simp [ApitorQ.setMotor, ApitorQ.setLED, ApitorQ.send, hr, hst]
  · replace hc : xc = false := hc
    subst hc
    unfold ApitorX.stopAll
    rw [if_pos (by simp)]
  · replace hc : xc = true := hc
    subst hc
    unfold ApitorX.stopAll
    rw [if_neg (by simp)]
    cases hb : (xrl.okayToSend xnow).1 with
    | true =>
        cases hb2 : ((xrl.okayToSend xnow).2.okayToSend xnow).1 with
        | true => simp [ApitorX.setMotor, ApitorX.setLED, ApitorX.send, hb, hb2]
        | false => simp [ApitorX.setMotor, ApitorX.setLED, ApitorX.send, hb, hb2]
    | false =>
        have hst := RateLimiter.okayToSend_false_state xrl xnow hb
        cases hb2 : ((xrl.okayToSend xnow).2.okayToSend xnow).1 with
        | true =>
            rw [hst] at hb2
            exact absurd hb2 (by simp [hb])
        | false => simp [ApitorX.setMotor, ApitorX.setLED, ApitorX.send, hb, hb2, hst]
  · replace hc : xc = true := hc
    subst hc
    replace hfull : BLESendRateMax ≤ xrl.count := hfull
    replace hw : xnow < xrl.windowStart + RateLimiter.windowMs := hw
    have hr : (xrl.okayToSend xnow).1 = false := by
      rw [RateLimiter.okayToSend_inWindow xrl xnow hw, if_neg (not_lt.mpr hfull)]
    have hst := RateLimiter.okayToSend_false_state xrl xnow hr
    unfold ApitorX.stopAll
    rw [if_neg (by simp)]
    simp [ApitorX.setMotor, ApitorX.setLED, ApitorX.send, hr, hst]

/-- Witness for C10: a connected ApitorQ session at the window ceiling
drops both stop commands; a connected fresh session transmits exactly
the motor all-stop frame and the LED all-off frame with undefined
ticks. -/
theorem c10_witness :
    ApitorQ.stopAll ⟨true, ⟨20, 0⟩, 500, [], 0, 0, 0⟩ =
      ⟨true, ⟨20, 0⟩, 500, [], 0, 0, 0⟩ ∧
    (ApitorQ.stopAll ⟨true, ⟨0, 0⟩, 0, [], 0, 0, 0⟩).sentLog =
      [[some 0x55, some 0xaa, some 0x03, some 0x10, some 0x00, some 0x00],
       [some 0x55, some 0xaa, some 0x04, some 0x03, some 0x00, none, none]] := by
  refine ⟨(c10_stopAll_rate_limited ⟨true, ⟨20, 0⟩, 500, [], 0, 0, 0⟩
      ⟨true, ⟨20, 0⟩, 500, [], 0, 0, 0, 0⟩).2.2.1 rfl (by decide) (by decide), ?_⟩
  have h := (c10_stopAll_rate_limited ⟨true, ⟨0, 0⟩, 0, [], 0, 0, 0⟩
      ⟨true, ⟨0, 0⟩, 0, [], 0, 0, 0, 0⟩).2.1 rfl
  rw [h]
  decide
